import Mathlib

set_option autoImplicit false

/-!
Shallow embedding of the `lens` renderer core (src/renderer.rs, src/object.rs,
src/lib.rs) and proofs about its model/material/pipeline assembly and
draw-dispatch protocol.

Modelling conventions:
* `f32` values are uninterpreted: every structure that stores vertex scalars is
  parameterised by a type `F`, and decoded images by a type `I`.  No claim
  inspects a floating-point value, only lengths, indices, slot numbers and
  byte offsets.
* `Vec<T>` becomes `List T`; `usize` becomes `Nat` (64-bit, never truncated by
  the code under study); `u32` values produced by Rust `as u32` casts are
  `Nat` reduced modulo `u32Mod = 2 ^ 32`, mirroring the cast's wrapping
  semantics.
* wgpu GPU handles are modelled by the data used to create them: a
  `wgpu::Buffer` by its typed contents, a `wgpu::BindGroup` by the resource it
  wraps, a `wgpu::BindGroupLayout` by a tag.  The `device`/`queue` handles,
  which only provide the ambient ability to create resources, are elided from
  argument lists.
* Rust code that can panic (indexing out of bounds, `Option::unwrap`) is
  embedded in `Option`, with `none` for the panic.
* recording methods on `wgpu::RenderPass` (`set_pipeline`, `set_vertex_buffer`,
  `set_bind_group`, `draw_indexed`, ...) are embedded as a trace of
  `RenderCmd` values, in emission order.
-/

/-- Modulus of the Rust `u32` type; `e as u32` on a `usize` is `e % u32Mod`. -/
def u32Mod : Nat := 2 ^ 32

/-- Size in bytes of one `f32`. -/
def f32Size : Nat := 4

/-- Size in bytes of a Rust `[f32; n]` array, as used by `mem::size_of` in the
vertex-attribute offset computations of src/renderer.rs. -/
def sizeOfF32Arr (n : Nat) : Nat := n * f32Size

/-- Embedding of `wgpu::VertexFormat` (only the constructors the program
uses). -/
inductive VertexFormat where
  | float32x2
  | float32x3
  | float32x4
deriving DecidableEq

/-- Embedding of `wgpu::VertexStepMode`.  The per-instance constructor is
renamed because `instance` is a Lean keyword. -/
inductive VertexStepMode where
  | vertex
  | instanceStep
deriving DecidableEq

/-- Embedding of `wgpu::VertexAttribute`. -/
structure VertexAttribute where
  offset : Nat
  shader_location : Nat
  format : VertexFormat
deriving DecidableEq

/-- Embedding of `wgpu::VertexBufferLayout`. -/
structure VertexBufferLayout where
  array_stride : Nat
  step_mode : VertexStepMode
  attributes : List VertexAttribute
deriving DecidableEq

/-- Embedding of `ModelVertex` (src/renderer.rs): position, texture
coordinates and normal of one vertex, scalars uninterpreted. -/
structure ModelVertex (F : Type) where
  position : F × F × F
  tex_coords : F × F
  normal : F × F × F
deriving DecidableEq

/-- Value of `mem::size_of::<ModelVertex>()`: eight `f32` fields laid out
`repr(C)` with no padding. -/
def ModelVertex.sizeOf : Nat := sizeOfF32Arr 8

/-- Embedding of `ModelVertex::desc` (src/renderer.rs lines 17-42): the
per-vertex buffer layout handed to the pipeline. -/
def ModelVertex.desc : VertexBufferLayout :=
  { array_stride := ModelVertex.sizeOf
    step_mode := VertexStepMode.vertex
    attributes :=
      [ { offset := 0, shader_location := 0, format := VertexFormat.float32x3 }
      , { offset := sizeOfF32Arr 3, shader_location := 1, format := VertexFormat.float32x2 }
      , { offset := sizeOfF32Arr 5, shader_location := 2, format := VertexFormat.float32x3 } ] }

/-- Embedding of `InstanceRaw` (src/renderer.rs): a 4x4 model matrix and a
3x3 normal matrix, scalars uninterpreted. -/
structure InstanceRaw (F : Type) where
  model : List (List F)
  normal : List (List F)
deriving DecidableEq

/-- Value of `mem::size_of::<InstanceRaw>()`: sixteen plus nine `f32` fields
laid out `repr(C)` with no padding. -/
def InstanceRaw.sizeOf : Nat := sizeOfF32Arr 25

/-- Embedding of `InstanceRaw::desc` (src/renderer.rs lines 51-104): the
per-instance buffer layout, four `vec4` attributes for the model matrix at
shader locations 5-8 and three `vec3` attributes for the normal matrix at
locations 9-11. -/
def InstanceRaw.desc : VertexBufferLayout :=
  { array_stride := InstanceRaw.sizeOf
    step_mode := VertexStepMode.instanceStep
    attributes :=
      [ { offset := 0, shader_location := 5, format := VertexFormat.float32x4 }
      , { offset := sizeOfF32Arr 4, shader_location := 6, format := VertexFormat.float32x4 }
      , { offset := sizeOfF32Arr 8, shader_location := 7, format := VertexFormat.float32x4 }
      , { offset := sizeOfF32Arr 12, shader_location := 8, format := VertexFormat.float32x4 }
      , { offset := sizeOfF32Arr 16, shader_location := 9, format := VertexFormat.float32x3 }
      , { offset := sizeOfF32Arr 19, shader_location := 10, format := VertexFormat.float32x3 }
      , { offset := sizeOfF32Arr 22, shader_location := 11, format := VertexFormat.float32x3 } ] }

/-- Embedding of `tobj::Mesh` as consumed by `Model::load`: flat coordinate
arrays, a `u32` index array (indices held as `Nat`), and an optional per-mesh
material index. -/
structure ObjMesh (F : Type) where
  positions : List F
  texcoords : List F
  normals : List F
  indices : List Nat
  material_id : Option Nat
deriving DecidableEq

/-- Embedding of `tobj::Model`: a named mesh. -/
structure TobjModel (F : Type) where
  name : String
  mesh : ObjMesh F
deriving DecidableEq

/-- Embedding of `object::Object` (src/object.rs): decoded models plus the
optional list of `(decoded image, source-path label, material name)` tuples. -/
structure Object (F I : Type) where
  models : List (TobjModel F)
  textures : Option (List (I × String × String))
deriving DecidableEq

/-- Modelled from the spec: `texture::Texture` lives in texture.rs, which is
not under src/; §6 of the spec only requires a texture created from a decoded
image (the view and sampler handles the bind group references are functions of
it).  `Texture::from_image` is embedded as always succeeding. -/
structure Texture (I : Type) where
  img : I
  label : Option String
deriving DecidableEq

/-- Embedding of `texture::Texture::from_image` (missing texture.rs; see
`Texture`). -/
def Texture.from_image {I : Type} (img : I) (label : Option String) : Texture I :=
  { img := img, label := label }

/-- Modelled from the spec: texture.rs also exposes the fixed depth format
constant `Texture::DEPTH_FORMAT` (§6, depth/target collaborator).  Texture
formats are uninterpreted `Nat` tags. -/
def Texture.DEPTH_FORMAT : Nat := 1

/-- Embedding of `wgpu::BindGroupLayout` handles by provenance: `material` is
the texture-plus-sampler layout that `Model::load` creates; layouts owned by
external collaborators (camera, light) are `external` tags. -/
inductive BindGroupLayout where
  | material
  | external (tag : Nat)
deriving DecidableEq

/-- Embedding of `wgpu::BindGroup` handles by provenance: `material tex` is
the group `Model::load` builds from a diffuse texture's view and sampler;
groups owned by external collaborators (camera, light) are `external` tags. -/
inductive BindGroup (I : Type) where
  | material (tex : Texture I)
  | external (tag : Nat)
deriving DecidableEq

/-- Embedding of `Material` (src/renderer.rs lines 117-121). -/
structure Material (I : Type) where
  name : String
  diffuse_texture : Texture I
  bind_group : BindGroup I
deriving DecidableEq

/-- Embedding of `Geometry` (src/renderer.rs lines 123-128); the two
`wgpu::Buffer` handles are modelled by their contents. -/
structure Geometry (F : Type) where
  name : String
  vertex_buffer : List (ModelVertex F)
  index_buffer : List Nat
  num_elements : Nat
deriving DecidableEq

/-- Embedding of `Mesh` (src/renderer.rs lines 112-115). -/
structure Mesh (F : Type) where
  geometry : Geometry F
  material_id : Option Nat
deriving DecidableEq

/-- Embedding of `Model` (src/renderer.rs lines 106-110). -/
structure Model (F I : Type) where
  meshes : List (Mesh F)
  materials : Option (List (Material I))
  material_layout : Option BindGroupLayout
deriving DecidableEq

/-- Embedding of one iteration of the vertex-building loop of `Model::load`
(src/renderer.rs lines 222-236): the `i`-th vertex gathers
`positions[3i..3i+2]`, `texcoords[2i..2i+1]` and `normals[3i..3i+2]`; a Rust
out-of-bounds index panics, here `none`. -/
def buildVertex {F : Type} (m : ObjMesh F) (i : Nat) : Option (ModelVertex F) := do
  let p0 ← m.positions[i * 3]?
  let p1 ← m.positions[i * 3 + 1]?
  let p2 ← m.positions[i * 3 + 2]?
  let t0 ← m.texcoords[i * 2]?
  let t1 ← m.texcoords[i * 2 + 1]?
  let n0 ← m.normals[i * 3]?
  let n1 ← m.normals[i * 3 + 1]?
  let n2 ← m.normals[i * 3 + 2]?
  some { position := (p0, p1, p2), tex_coords := (t0, t1), normal := (n0, n1, n2) }

/-- Runs `buildVertex` over a list of loop indices, keeping order. -/
def buildVerticesAux {F : Type} (m : ObjMesh F) : List Nat → Option (List (ModelVertex F))
  | [] => some []
  | i :: rest =>
    match buildVertex m i, buildVerticesAux m rest with
    | some v, some vs => some (v :: vs)
    | _, _ => none

/-- Embedding of the vertex-building loop of `Model::load`: one vertex per
`i` in `0 .. positions.len() / 3`. -/
def buildVertices {F : Type} (m : ObjMesh F) : Option (List (ModelVertex F)) :=
  buildVerticesAux m (List.range (m.positions.length / 3))

/-- Embedding of one iteration of the mesh loop of `Model::load`
(src/renderer.rs lines 220-267): build the vertex list, wrap the two buffers
into a `Geometry` whose `num_elements` is `indices.len() as u32`, and attach
`Some(material_id.unwrap_or(0))` or `None` according to `material_flag`. -/
def loadMesh {F : Type} (material_flag : Bool) (m : TobjModel F) : Option (Mesh F) :=
  match buildVertices m.mesh with
  | none => none
  | some vertices =>
    let geometry : Geometry F :=
      { name := m.name
        vertex_buffer := vertices
        index_buffer := m.mesh.indices
        num_elements := m.mesh.indices.length % u32Mod }
    if material_flag then
      some { geometry := geometry, material_id := some (m.mesh.material_id.getD 0) }
    else
      some { geometry := geometry, material_id := none }

/-- Embedding of the mesh loop of `Model::load`, in input order. -/
def loadMeshes {F : Type} (material_flag : Bool) : List (TobjModel F) → Option (List (Mesh F))
  | [] => some []
  | m :: rest =>
    match loadMesh material_flag m, loadMeshes material_flag rest with
    | some mesh, some meshes => some (mesh :: meshes)
    | _, _ => none

/-- Embedding of the material loop of `Model::load` (src/renderer.rs lines
178-217): one `Material` per supplied texture tuple, in input order; the bind
group wraps the texture created by `Texture::from_image`. -/
def loadMaterials {I : Type} (textures : List (I × String × String)) : List (Material I) :=
  textures.map fun t =>
    let diffuse_texture := Texture.from_image t.1 (some t.2.1)
    { name := t.2.2
      diffuse_texture := diffuse_texture
      bind_group := BindGroup.material diffuse_texture }

/-- Embedding of `Model::load` (src/renderer.rs lines 130-274).  The
`material_flag` mutable local is `textures.is_some()`; `material_layout` and
`materials` are built from the texture list when present; the mesh loop runs
afterwards.  A panic anywhere is `none`. -/
def Model.load {F I : Type} (object : Object F I) : Option (Model F I) :=
  let material_flag := object.textures.isSome
  let material_layout : Option BindGroupLayout :=
    match object.textures with
    | some _ => some BindGroupLayout.material
    | none => none
  let materials : Option (List (Material I)) :=
    match object.textures with
    | some material_textures => some (loadMaterials material_textures)
    | none => none
  match loadMeshes material_flag object.models with
  | none => none
  | some meshes =>
    some { meshes := meshes, materials := materials, material_layout := material_layout }

/-- Modelled from the spec: the camera collaborator (camera.rs is not under
src/) exposes a GPU binding layout handle and a bind-group handle (§6). -/
structure Camera (I : Type) where
  bind_group_layout : BindGroupLayout
  bind_group : BindGroup I
deriving DecidableEq

/-- Modelled from the spec: the light collaborator (light.rs is not under
src/) exposes the same shape as the camera (§6). -/
structure Light (I : Type) where
  bind_group_layout : BindGroupLayout
  bind_group : BindGroup I
deriving DecidableEq

/-- Embedding of the fields of `wgpu::SurfaceConfiguration` the core reads;
the texture format is an uninterpreted `Nat` tag. -/
structure SurfaceConfiguration where
  width : Nat
  height : Nat
  format : Nat
deriving DecidableEq

/-- Embedding of `wgpu::RenderPipeline` by the data
`ModelRenderer::create_render_pipeline` (src/renderer.rs lines 358-413) bakes
into it and that the claims inspect: the ordered bind-group layouts, the
colour/depth formats, the ordered vertex buffer layouts and the shader source.
The fixed-function state (triangle list, back-face culling, ccw winding,
replace blending, less-than depth compare) is the same for every pipeline and
is elided. -/
structure RenderPipeline where
  layout : List BindGroupLayout
  color_format : Nat
  depth_format : Option Nat
  vertex_layouts : List VertexBufferLayout
  shader : String
deriving DecidableEq

/-- Embedding of `ModelRenderer::create_render_pipeline`: records its
arguments in the pipeline. -/
def createRenderPipeline (layout : List BindGroupLayout) (color_format : Nat)
    (depth_format : Option Nat) (vertex_layouts : List VertexBufferLayout)
    (shader : String) : RenderPipeline :=
  { layout := layout
    color_format := color_format
    depth_format := depth_format
    vertex_layouts := vertex_layouts
    shader := shader }

/-- Embedding of `ModelRenderer` (src/renderer.rs lines 277-282); the
instance buffer handle is modelled by its contents. -/
structure ModelRenderer (F I : Type) where
  model : Model F I
  render_pipeline : RenderPipeline
  instance_buffer : Option (List (InstanceRaw F))
  instance_length : Option Nat
deriving DecidableEq

/-- Embedding of `ModelRenderer::new_renderer` (src/renderer.rs lines
284-356).  `instance_mode` is `instance_data.is_some()`; the bind-group-layout
list takes the model's material layout first when present, then always camera
then light; the vertex-layout list takes the per-vertex layout first and the
per-instance layout exactly when `instance_mode`; the instance buffer is
uploaded from `instance_data.unwrap()` when `instance_mode` (the unwrap cannot
fail there, so `getD` with an irrelevant default embeds it); `instance_length`
is stored as passed. -/
def ModelRenderer.new_renderer {F I : Type} (model : Model F I) (config : SurfaceConfiguration)
    (camera : Camera I) (light : Light I) (shader_file : String)
    (instance_data : Option (List (InstanceRaw F))) (instance_length : Option Nat) :
    ModelRenderer F I :=
  let instance_mode := instance_data.isSome
  let render_pipeline :=
    let bind_group_layouts : List BindGroupLayout :=
      (match model.material_layout with
       | some material_layout => [material_layout]
       | none => []) ++ [camera.bind_group_layout, light.bind_group_layout]
    let vertex_layouts :=
      [ModelVertex.desc] ++ (if instance_mode then [InstanceRaw.desc] else [])
    createRenderPipeline bind_group_layouts config.format (some Texture.DEPTH_FORMAT)
      vertex_layouts shader_file
  let instance_buffer :=
    if instance_mode then some (instance_data.getD []) else none
  { model := model
    render_pipeline := render_pipeline
    instance_buffer := instance_buffer
    instance_length := instance_length }

/-- Contents of a `wgpu::Buffer` as it appears in a recorded command. -/
inductive BufferData (F : Type) where
  | vertex (vs : List (ModelVertex F))
  | index (ixs : List Nat)
  | inst (xs : List (InstanceRaw F))
deriving DecidableEq

/-- Embedding of `wgpu::IndexFormat` (only `Uint32` is used). -/
inductive IndexFormat where
  | uint32
deriving DecidableEq

/-- Trace alphabet for the recording methods of `wgpu::RenderPass` used by
`draw_model` / `draw_mesh_instanced`.  Ranges `a..b` are pairs `(a, b)`. -/
inductive RenderCmd (F I : Type) where
  | setPipeline (pipeline : RenderPipeline)
  | setVertexBuffer (slot : Nat) (buffer : BufferData F)
  | setIndexBuffer (buffer : BufferData F) (format : IndexFormat)
  | setBindGroup (slot : Nat) (group : BindGroup I)
  | drawIndexed (indices : Nat × Nat) (base_vertex : Int) (instances : Nat × Nat)
deriving DecidableEq

/-- Embedding of the `bind_groups.iter().enumerate().for_each` loop of
`draw_mesh_instanced` (src/renderer.rs lines 492-494): the element at overall
position `i` (the running index starts at `i₀ = 0`) is bound at slot
`index as u32 + offset`, a `u32` computation, hence the reductions modulo
`u32Mod`. -/
def bindShared {F I : Type} (offset : Nat) : Nat → List (BindGroup I) → List (RenderCmd F I)
  | _, [] => []
  | i, g :: rest =>
    RenderCmd.setBindGroup ((i % u32Mod + offset) % u32Mod) g :: bindShared offset (i + 1) rest

/-- Embedding of `draw_mesh_instanced` (src/renderer.rs lines 470-498): set
the vertex buffer at slot 0 and the 32-bit index buffer; if a material bind
group is supplied, bind it at slot 0 and set the local offset to 1, else leave
the offset 0; bind each shared bind group at `its index + offset`; finally draw
indices `0..num_elements` with the given instance range. -/
def drawMeshInstanced {F I : Type} (mesh : Mesh F) (material_bind_group : Option (BindGroup I))
    (instances : Nat × Nat) (bind_groups : List (BindGroup I)) : List (RenderCmd F I) :=
  let offset : Nat := if material_bind_group.isSome then 1 else 0
  [ RenderCmd.setVertexBuffer 0 (BufferData.vertex mesh.geometry.vertex_buffer)
  , RenderCmd.setIndexBuffer (BufferData.index mesh.geometry.index_buffer) IndexFormat.uint32 ]
  ++ (match material_bind_group with
      | some material => [RenderCmd.setBindGroup 0 material]
      | none => [])
  ++ bindShared offset 0 bind_groups
  ++ [RenderCmd.drawIndexed (0, mesh.geometry.num_elements) 0 instances]

/-- Embedding of the instance-range block of `draw_model` (src/renderer.rs
lines 441-451): when `instance_length` is `Some(len)` the instance buffer is
unwrapped (a panic, `none`, when absent) and bound at vertex stream slot 1,
and the range is `0..(len as u32)`; otherwise no command is emitted and the
range is `0..1`. -/
def instancesToDraw {F I : Type} (r : ModelRenderer F I) : Option (List (RenderCmd F I) × (Nat × Nat)) :=
  match r.instance_length with
  | some len =>
    match r.instance_buffer with
    | some buf => some ([RenderCmd.setVertexBuffer 1 (BufferData.inst buf)], (0, len % u32Mod))
    | none => none
  | none => some ([], (0, 1))

/-- Embedding of one iteration of the mesh loop of `draw_model`
(src/renderer.rs lines 454-467): a mesh with `material_id = Some(i)` draws
with bind group `materials.unwrap()[i].bind_group` (a panic, `none`, when
`materials` is `None` or `i` is out of range); a mesh without draws with no
material bind group. -/
def meshCmd {F I : Type} (model : Model F I) (instances : Nat × Nat) (bind_groups : List (BindGroup I))
    (mesh : Mesh F) : Option (List (RenderCmd F I)) :=
  match mesh.material_id with
  | some material_index =>
    match model.materials with
    | some materials =>
      (materials[material_index]?).map fun material =>
        drawMeshInstanced mesh (some material.bind_group) instances bind_groups
    | none => none
  | none => some (drawMeshInstanced mesh none instances bind_groups)

/-- Embedding of the mesh loop of `draw_model`, in stored mesh order. -/
def drawMeshes {F I : Type} (model : Model F I) (instances : Nat × Nat) (bind_groups : List (BindGroup I)) :
    List (Mesh F) → Option (List (RenderCmd F I))
  | [] => some []
  | mesh :: rest =>
    match meshCmd model instances bind_groups mesh, drawMeshes model instances bind_groups rest with
    | some cmds, some restCmds => some (cmds ++ restCmds)
    | _, _ => none

/-- Embedding of `draw_model` (src/renderer.rs lines 432-468): set the
pipeline, run the instance-range block, then draw each mesh of the model in
stored order. -/
def drawModel {F I : Type} (r : ModelRenderer F I) (bind_groups : List (BindGroup I)) :
    Option (List (RenderCmd F I)) :=
  match instancesToDraw r with
  | none => none
  | some (instCmds, instances_to_draw) =>
    match drawMeshes r.model instances_to_draw bind_groups r.model.meshes with
    | none => none
    | some meshCmds => some (RenderCmd.setPipeline r.render_pipeline :: instCmds ++ meshCmds)

/-- Projection of a command trace to its `set_bind_group` calls, keeping order:
pairs of slot and bound group. -/
def bindGroupCmds {F I : Type} : List (RenderCmd F I) → List (Nat × BindGroup I)
  | [] => []
  | RenderCmd.setBindGroup slot g :: rest => (slot, g) :: bindGroupCmds rest
  | RenderCmd.setPipeline _ :: rest => bindGroupCmds rest
  | RenderCmd.setVertexBuffer _ _ :: rest => bindGroupCmds rest
  | RenderCmd.setIndexBuffer _ _ :: rest => bindGroupCmds rest
  | RenderCmd.drawIndexed _ _ _ :: rest => bindGroupCmds rest

/-- Projection of a command trace to its `draw_indexed` calls, keeping order:
pairs of index range and instance range. -/
def drawsOf {F I : Type} : List (RenderCmd F I) → List ((Nat × Nat) × (Nat × Nat))
  | [] => []
  | RenderCmd.drawIndexed ixs _ insts :: rest => (ixs, insts) :: drawsOf rest
  | RenderCmd.setPipeline _ :: rest => drawsOf rest
  | RenderCmd.setVertexBuffer _ _ :: rest => drawsOf rest
  | RenderCmd.setIndexBuffer _ _ :: rest => drawsOf rest
  | RenderCmd.setBindGroup _ _ :: rest => drawsOf rest

/-- State of `Scene` (src/lib.rs) relevant to resize and per-frame error
handling: the last known window size, the surface configuration size, the size
the surface was last configured with, the depth texture size and the camera
projection size.  All GPU contents are elided. -/
structure SceneState where
  size : Nat × Nat
  config_size : Nat × Nat
  surface_size : Nat × Nat
  depth_size : Nat × Nat
  projection_size : Nat × Nat
deriving DecidableEq

/-- Embedding of `Scene::resize` (src/lib.rs lines 173-185): when both
dimensions are positive, the projection, stored size and configuration are
updated to the new size, the surface is reconfigured with the updated
configuration and the depth texture is recreated from it; otherwise nothing
happens. -/
def SceneState.resize (s : SceneState) (new_size : Nat × Nat) : SceneState :=
  if 0 < new_size.1 ∧ 0 < new_size.2 then
    { size := new_size
      config_size := new_size
      surface_size := new_size
      depth_size := new_size
      projection_size := new_size }
  else s

/-- Embedding of `wgpu::SurfaceError`. -/
inductive SurfaceError where
  | timeout
  | outdated
  | lost
  | outOfMemory
deriving DecidableEq

/-- Embedding of `winit::ControlFlow` as set by the event loop body: `poll`
(the default re-established on every event) or `exit`. -/
inductive ControlFlow where
  | poll
  | exit
deriving DecidableEq

/-- Embedding of the `match scene.render()` arm of `Lens::run` (src/lib.rs
lines 367-375): `Ok` does nothing; `Lost` calls `scene.resize(scene.size)`;
`OutOfMemory` sets the control flow to `Exit`; every other error is printed
and the frame skipped.  The result is the new scene state, the control flow
after the arm, and the lines logged. -/
def handleRenderResult (scene : SceneState) (res : Option SurfaceError) :
    SceneState × ControlFlow × List String :=
  match res with
  | none => (scene, ControlFlow.poll, [])
  | some SurfaceError.lost => (scene.resize scene.size, ControlFlow.poll, [])
  | some SurfaceError.outOfMemory => (scene, ControlFlow.exit, [])
  | some SurfaceError.timeout => (scene, ControlFlow.poll, ["Error : Timeout"])
  | some SurfaceError.outdated => (scene, ControlFlow.poll, ["Error : Outdated"])

/-! Helper lemmas about the command-trace projections. -/

lemma bindGroupCmds_append {F I : Type} (l₁ l₂ : List (RenderCmd F I)) :
    bindGroupCmds (l₁ ++ l₂) = bindGroupCmds l₁ ++ bindGroupCmds l₂ := by
  induction l₁ with
  | nil => rfl
  | cons c rest ih => cases c <;> simp [bindGroupCmds, ih]

lemma drawsOf_append {F I : Type} (l₁ l₂ : List (RenderCmd F I)) :
    drawsOf (l₁ ++ l₂) = drawsOf l₁ ++ drawsOf l₂ := by
  induction l₁ with
  | nil => rfl
  | cons c rest ih => cases c <;> simp [drawsOf, ih]

lemma bindGroupCmds_bindShared_getElem {F I : Type} (o : Nat) (bgs : List (BindGroup I)) :
    ∀ i j, (bindGroupCmds (bindShared o i bgs : List (RenderCmd F I)))[j]?
      = bgs[j]?.map (fun g => (((i + j) % u32Mod + o) % u32Mod, g)) := by
  induction bgs with
  | nil => intro i j; simp [bindShared, bindGroupCmds]
  | cons g rest ih =>
    intro i j
    cases j with
    | zero => simp [bindShared, bindGroupCmds]
    | succ j =>
      simp only [bindShared, bindGroupCmds, List.getElem?_cons_succ]
      rw [ih (i + 1) j]
      have h : i + (j + 1) = i + 1 + j := by omega
      rw [h]

lemma drawsOf_bindShared {F I : Type} (o : Nat) (bgs : List (BindGroup I)) :
    ∀ i, drawsOf (bindShared o i bgs : List (RenderCmd F I)) = [] := by
  induction bgs with
  | nil => intro i; rfl
  | cons g rest ih => intro i; simp [bindShared, drawsOf, ih]

lemma bindGroupCmds_drawMeshInstanced {F I : Type} (mesh : Mesh F)
    (mat : Option (BindGroup I)) (insts : Nat × Nat) (bgs : List (BindGroup I)) :
    bindGroupCmds (drawMeshInstanced mesh mat insts bgs)
      = (match mat with | some g => [(0, g)] | none => [])
        ++ bindGroupCmds (bindShared (if mat.isSome then 1 else 0) 0 bgs
            : List (RenderCmd F I)) := by
  cases mat <;>
    simp [drawMeshInstanced, bindGroupCmds_append, bindGroupCmds]

lemma drawsOf_drawMeshInstanced {F I : Type} (mesh : Mesh F)
    (mat : Option (BindGroup I)) (insts : Nat × Nat) (bgs : List (BindGroup I)) :
    drawsOf (drawMeshInstanced mesh mat insts bgs)
      = [((0, mesh.geometry.num_elements), insts)] := by
  cases mat <;>
    simp [drawMeshInstanced, drawsOf_append, drawsOf, drawsOf_bindShared]

/-- C1: in `draw_mesh_instanced`, with local offset `o = 1` when a material
bind group is supplied for the mesh (the material then being bound at slot 0
as the first bind-group command) and `o = 0` otherwise, the `i`-th shared
bind group is bound, in list order, at slot `(i mod 2^32 + o) mod 2^32` (the
slot is a `u32`), which is `o + i` whenever `o + i < 2^32`; the offset depends
only on the material argument supplied for that mesh, never on any model-wide
flag. -/
theorem c1_slot_assignment {F I : Type} (mesh : Mesh F) (mat : Option (BindGroup I))
    (insts : Nat × Nat) (bgs : List (BindGroup I)) :
    (mat = none →
      ∀ i : Nat, (bindGroupCmds (drawMeshInstanced mesh mat insts bgs))[i]?
        = bgs[i]?.map (fun g => ((i % u32Mod + 0) % u32Mod, g))) ∧
    (∀ g0, mat = some g0 →
      (bindGroupCmds (drawMeshInstanced mesh mat insts bgs))[0]? = some (0, g0) ∧
      ∀ i : Nat, (bindGroupCmds (drawMeshInstanced mesh mat insts bgs))[i + 1]?
        = bgs[i]?.map (fun g => ((i % u32Mod + 1) % u32Mod, g))) := by
  constructor
  · rintro rfl i
    rw [bindGroupCmds_drawMeshInstanced]
    simpa using bindGroupCmds_bindShared_getElem (F := F) 0 bgs 0 i
  · rintro g0 rfl
    rw [bindGroupCmds_drawMeshInstanced]
    constructor
    · simp
    · intro i
      simpa using bindGroupCmds_bindShared_getElem (F := F) 1 bgs 0 i

/-- Mesh used by concrete C1 inputs: empty geometry, no material. -/
def c1Mesh : Mesh Unit :=
  { geometry := { name := "", vertex_buffer := [], index_buffer := [], num_elements := 0 }
    material_id := none }

/-- Shared bind-group list used by the C1 witness: two external groups
standing for camera and light. -/
def c1wBgs : List (BindGroup Unit) := [BindGroup.external 0, BindGroup.external 1]

/-- Witness for c1_slot_assignment: with a material supplied, the material is
bound at slot 0 and the two shared groups (camera, light) at slots 1 and 2. -/
theorem c1_slot_assignment_witness :
    (bindGroupCmds (drawMeshInstanced c1Mesh (some (BindGroup.external 7))
        (0, 1) c1wBgs))[0]? = some (0, BindGroup.external 7) ∧
    (bindGroupCmds (drawMeshInstanced c1Mesh (some (BindGroup.external 7))
        (0, 1) c1wBgs))[0 + 1]?
      = c1wBgs[0]?.map (fun g => ((0 % u32Mod + 1) % u32Mod, g)) ∧
    (bindGroupCmds (drawMeshInstanced c1Mesh (some (BindGroup.external 7))
        (0, 1) c1wBgs))[1 + 1]?
      = c1wBgs[1]?.map (fun g => ((1 % u32Mod + 1) % u32Mod, g)) :=
  ⟨((c1_slot_assignment c1Mesh (some (BindGroup.external 7)) (0, 1) c1wBgs).2 _ rfl).1,
   ((c1_slot_assignment c1Mesh (some (BindGroup.external 7)) (0, 1) c1wBgs).2 _ rfl).2 0,
   ((c1_slot_assignment c1Mesh (some (BindGroup.external 7)) (0, 1) c1wBgs).2 _ rfl).2 1⟩

/-- Shared bind-group list refuting C1 as stated: 2^32 + 1 groups, the last
one distinct. -/
def c1CexBgs : List (BindGroup Unit) :=
  List.replicate u32Mod (BindGroup.external 0) ++ [BindGroup.external 1]

/-- Counterexample to C1 as stated: the slot computation `index as u32 +
offset` is a `u32` computation, so for the shared bind-group list `c1CexBgs`
the group at position `i = 2^32` (with no material supplied, hence `o = 0`) is
bound at slot 0, not at slot `o + i = 2^32`. -/
theorem c1_counterexample :
    c1CexBgs[u32Mod]? = some (BindGroup.external 1) ∧
    (bindGroupCmds (drawMeshInstanced c1Mesh (none : Option (BindGroup Unit))
        (0, 1) c1CexBgs))[u32Mod]? = some (0, BindGroup.external 1) ∧
    (0 : Nat) ≠ 0 + u32Mod := by
  have hlen : (List.replicate u32Mod (BindGroup.external 0 : BindGroup Unit)).length = u32Mod :=
    List.length_replicate ..
  have hget : c1CexBgs[u32Mod]? = some (BindGroup.external 1) := by
    unfold c1CexBgs
    rw [List.getElem?_append_right (by rw [hlen])]
    simp [hlen]
  refine ⟨hget, ?_, by norm_num [u32Mod]⟩
  rw [bindGroupCmds_drawMeshInstanced]
  simp only [Option.isSome_none, Bool.false_eq_true, if_false, List.nil_append]
  rw [bindGroupCmds_bindShared_getElem (F := Unit) 0 c1CexBgs 0 u32Mod, hget]
  simp [Nat.mod_self]

/-- C9: the host-side vertex and instance buffer layouts match the shader
wire-format contract: per-vertex attributes at byte offsets 0, 12, 20 and
shader locations 0, 1, 2 with formats 3xf32, 2xf32, 3xf32; per-instance
attributes carry the 4x4 model matrix as four vec4 at locations 5-8 and the
3x3 normal matrix as three vec3 at locations 9-11. -/
theorem c9_wire_format :
    ModelVertex.desc.step_mode = VertexStepMode.vertex ∧
    ModelVertex.desc.attributes.map (fun a => (a.offset, a.shader_location, a.format))
      = [(0, 0, VertexFormat.float32x3), (12, 1, VertexFormat.float32x2),
         (20, 2, VertexFormat.float32x3)] ∧
    InstanceRaw.desc.step_mode = VertexStepMode.instanceStep ∧
    InstanceRaw.desc.attributes.map (fun a => (a.shader_location, a.format))
      = [(5, VertexFormat.float32x4), (6, VertexFormat.float32x4),
         (7, VertexFormat.float32x4), (8, VertexFormat.float32x4),
         (9, VertexFormat.float32x3), (10, VertexFormat.float32x3),
         (11, VertexFormat.float32x3)] := by
  decide

/-! Helper lemmas about `Model.load`. -/

lemma buildVerticesAux_length {F : Type} (m : ObjMesh F) (l : List Nat) :
    ∀ vs, buildVerticesAux m l = some vs → vs.length = l.length := by
  induction l with
  | nil =>
    intro vs h
    simp only [buildVerticesAux, Option.some.injEq] at h
    simp [← h]
  | cons i rest ih =>
    intro vs h
    simp only [buildVerticesAux] at h
    cases hv : buildVertex m i <;> rw [hv] at h
    · exact absurd h (by simp)
    cases hr : buildVerticesAux m rest <;> rw [hr] at h
    · exact absurd h (by simp)
    · simp only [Option.some.injEq] at h
      simp [← h, ih _ hr]

lemma buildVertices_length {F : Type} (m : ObjMesh F) (vs : List (ModelVertex F))
    (h : buildVertices m = some vs) : vs.length = m.positions.length / 3 := by
  simpa using buildVerticesAux_length m (List.range (m.positions.length / 3)) vs h

lemma loadMesh_spec {F : Type} {flag : Bool} {m : TobjModel F} {mesh : Mesh F}
    (h : loadMesh flag m = some mesh) :
    (∃ vertices, buildVertices m.mesh = some vertices ∧
      mesh.geometry.vertex_buffer = vertices) ∧
    mesh.geometry.name = m.name ∧
    mesh.geometry.index_buffer = m.mesh.indices ∧
    mesh.geometry.num_elements = m.mesh.indices.length % u32Mod ∧
    mesh.material_id = (if flag then some (m.mesh.material_id.getD 0) else none) := by
  simp only [loadMesh] at h
  cases hv : buildVertices m.mesh <;> rw [hv] at h
  · exact absurd h (by simp)
  · cases flag <;> simp only [Bool.false_eq_true, if_false, if_true,
      Option.some.injEq] at h <;> rw [← h] <;>
      exact ⟨⟨_, rfl, rfl⟩, rfl, rfl, rfl, rfl⟩

lemma loadMeshes_forall₂ {F : Type} {flag : Bool} :
    ∀ (ms : List (TobjModel F)) (meshes : List (Mesh F)),
      loadMeshes flag ms = some meshes →
      List.Forall₂ (fun m mesh => loadMesh flag m = some mesh) ms meshes := by
  intro ms
  induction ms with
  | nil =>
    intro meshes h
    simp only [loadMeshes, Option.some.injEq] at h
    simp [← h]
  | cons m rest ih =>
    intro meshes h
    simp only [loadMeshes] at h
    cases hv : loadMesh flag m <;> rw [hv] at h
    · exact absurd h (by simp)
    cases hr : loadMeshes flag rest <;> rw [hr] at h
    · exact absurd h (by simp)
    · simp only [Option.some.injEq] at h
      rw [← h]
      exact List.Forall₂.cons hv (ih _ hr)

lemma Model.load_spec {F I : Type} {obj : Object F I} {model : Model F I}
    (h : Model.load obj = some model) :
    model.materials = Option.map loadMaterials obj.textures ∧
    model.material_layout = Option.map (fun _ => BindGroupLayout.material) obj.textures ∧
    loadMeshes obj.textures.isSome obj.models = some model.meshes := by
  unfold Model.load at h
  cases htex : obj.textures with
  | none =>
    rw [htex] at h
    simp only [Option.isSome_none] at h ⊢
    cases hm : loadMeshes false obj.models <;> rw [hm] at h
    · exact absurd h (by simp)
    · simp only [Option.some.injEq] at h
      rw [← h]
      exact ⟨rfl, rfl, rfl⟩
  | some tex =>
    rw [htex] at h
    simp only [Option.isSome_some] at h ⊢
    cases hm : loadMeshes true obj.models <;> rw [hm] at h
    · exact absurd h (by simp)
    · simp only [Option.some.injEq] at h
      rw [← h]
      exact ⟨rfl, rfl, rfl⟩

lemma forallTwo_exists_left {α β : Type _} {R : α → β → Prop} :
    ∀ {l₁ : List α} {l₂ : List β}, List.Forall₂ R l₁ l₂ →
      ∀ {b}, b ∈ l₂ → ∃ a ∈ l₁, R a b := by
  intro l₁ l₂ h
  induction h with
  | nil => intro b hb; cases hb
  | @cons a b l₁ l₂ hab htail ih =>
    intro c hc
    rcases List.mem_cons.mp hc with rfl | hc
    · exact ⟨a, List.mem_cons_self a l₁, hab⟩
    · rcases ih hc with ⟨a', ha', hr⟩
      exact ⟨a', List.mem_cons_of_mem _ ha', hr⟩

/-- C5: every Model returned by `Model::load` satisfies the presence
invariants: `materials.is_some() == material_layout.is_some()`, every mesh has
`material_id.is_some() == materials.is_some()`, and when the input Object
carries no textures the materials, the layout and every mesh's material id are
all `None`. -/
theorem c5_presence_invariants {F I : Type} (obj : Object F I) (model : Model F I)
    (hload : Model.load obj = some model) :
    model.materials.isSome = model.material_layout.isSome ∧
    (∀ mesh ∈ model.meshes, mesh.material_id.isSome = model.materials.isSome) ∧
    (obj.textures = none →
      model.materials = none ∧ model.material_layout = none ∧
      ∀ mesh ∈ model.meshes, mesh.material_id = none) := by
  obtain ⟨hmat, hlay, hmesh⟩ := Model.load_spec hload
  have hforall := loadMeshes_forall₂ _ _ hmesh
  have hid : ∀ mesh ∈ model.meshes, mesh.material_id.isSome = obj.textures.isSome := by
    intro mesh hm
    obtain ⟨src, hsrc, hsrcload⟩ := forallTwo_exists_left hforall hm
    obtain ⟨-, -, -, -, hmid⟩ := loadMesh_spec hsrcload
    rw [hmid]
    cases obj.textures <;> simp
  refine ⟨?_, ?_, ?_⟩
  · rw [hmat, hlay]; cases obj.textures <;> simp
  · intro mesh hm; rw [hid mesh hm, hmat]; cases obj.textures <;> simp
  · intro htex
    rw [htex] at hmat hlay
    refine ⟨by simpa using hmat, by simpa using hlay, ?_⟩
    intro mesh hm
    have hsome := hid mesh hm
    rw [htex] at hsome
    cases hmm : mesh.material_id with
    | none => rfl
    | some v => rw [hmm] at hsome; simp at hsome

/-- Object used by the C5 witness: no models, no textures. -/
def c5wObj : Object Unit Unit := { models := [], textures := none }

/-- Model produced by loading `c5wObj`. -/
def c5wModel : Model Unit Unit :=
  { meshes := [], materials := none, material_layout := none }

/-- Witness for c5_presence_invariants at a concrete texture-free object. -/
theorem c5_presence_invariants_witness :
    Model.load c5wObj = some c5wModel ∧
    (c5wModel.materials.isSome = c5wModel.material_layout.isSome ∧
     (∀ mesh ∈ c5wModel.meshes, mesh.material_id.isSome = c5wModel.materials.isSome) ∧
     (c5wObj.textures = none →
       c5wModel.materials = none ∧ c5wModel.material_layout = none ∧
       ∀ mesh ∈ c5wModel.meshes, mesh.material_id = none)) :=
  ⟨by decide, c5_presence_invariants c5wObj c5wModel (by decide)⟩

/-- C4 (amended): for a Model built by `Model::load` from an Object with `N`
supplied texture tuples, the materials list has length `N` and each mesh's
`material_id` is `Some` of the source mesh's material index, defaulting to 0
when absent; and provided every source mesh's effective index
(`material_id.unwrap_or(0)`) is below `N` — which `Model::load` itself never
checks — every stored `material_id` is below `N`. -/
theorem c4_material_indices {F I : Type} (obj : Object F I) (model : Model F I)
    (tex : List (I × String × String))
    (htex : obj.textures = some tex) (hload : Model.load obj = some model) :
    (∃ ms, model.materials = some ms ∧ ms.length = tex.length) ∧
    List.Forall₂ (fun (src : TobjModel F) (mesh : Mesh F) =>
      mesh.material_id = some (src.mesh.material_id.getD 0)) obj.models model.meshes ∧
    ((∀ src ∈ obj.models, src.mesh.material_id.getD 0 < tex.length) →
      ∀ mesh ∈ model.meshes, ∀ i, mesh.material_id = some i → i < tex.length) := by
  obtain ⟨hmat, hlay, hmesh⟩ := Model.load_spec hload
  rw [htex] at hmat hmesh
  have hids : List.Forall₂ (fun (src : TobjModel F) (mesh : Mesh F) =>
      mesh.material_id = some (src.mesh.material_id.getD 0)) obj.models model.meshes := by
    refine List.Forall₂.imp ?_ (loadMeshes_forall₂ _ _ hmesh)
    intro src mesh h
    obtain ⟨-, -, -, -, hmid⟩ := loadMesh_spec h
    simpa using hmid
  refine ⟨⟨loadMaterials tex, by simpa using hmat, by simp [loadMaterials]⟩, hids, ?_⟩
  intro hbound mesh hm i hi
  obtain ⟨src, hsrc, hr⟩ := forallTwo_exists_left hids hm
  rw [hr] at hi
  injection hi with hi
  rw [← hi]
  exact hbound src hsrc

/-- Texture-tuple list used by the C4 witness. -/
def c4wTex : List (Unit × String × String) := [((), "p", "n")]

/-- Object used by the C4 witness: one mesh with material index 0, one
texture. -/
def c4wObj : Object Unit Unit :=
  { models := [ { name := ""
                , mesh := { positions := [], texcoords := [], normals := []
                          , indices := [], material_id := some 0 } } ]
    textures := some c4wTex }

/-- Model produced by loading `c4wObj`. -/
def c4wModel : Model Unit Unit :=
  { meshes := [ { geometry := { name := "", vertex_buffer := [], index_buffer := []
                              , num_elements := 0 }
                , material_id := some 0 } ]
    materials := some [ { name := "n"
                        , diffuse_texture := { img := (), label := some "p" }
                        , bind_group := BindGroup.material { img := (), label := some "p" } } ]
    material_layout := some BindGroupLayout.material }

/-- Witness for c4_material_indices at a concrete object with one texture and
one in-range material index. -/
theorem c4_material_indices_witness :
    c4wObj.textures = some c4wTex ∧ Model.load c4wObj = some c4wModel ∧
    ((∃ ms, c4wModel.materials = some ms ∧ ms.length = c4wTex.length) ∧
     List.Forall₂ (fun (src : TobjModel Unit) (mesh : Mesh Unit) =>
       mesh.material_id = some (src.mesh.material_id.getD 0)) c4wObj.models c4wModel.meshes ∧
     ((∀ src ∈ c4wObj.models, src.mesh.material_id.getD 0 < c4wTex.length) →
       ∀ mesh ∈ c4wModel.meshes, ∀ i, mesh.material_id = some i → i < c4wTex.length)) :=
  ⟨by decide, by decide,
   c4_material_indices c4wObj c4wModel c4wTex (by decide) (by decide)⟩

/-- Object refuting C4 as stated: one texture (`N = 1`) but a source mesh
carrying material index 3. -/
def c4CexObj : Object Unit Unit :=
  { models := [ { name := ""
                , mesh := { positions := [], texcoords := [], normals := []
                          , indices := [], material_id := some 3 } } ]
    textures := some [((), "p", "n")] }

/-- Counterexample to C4 as stated: `Model::load` copies the source material
index unchecked, so loading `c4CexObj` yields one material (`N = 1`) yet a
mesh with `material_id = Some 3`, violating `material_id < N`. -/
theorem c4_counterexample :
    (Model.load c4CexObj).map (fun model =>
      (model.materials.map List.length, model.meshes.map Mesh.material_id))
      = some (some 1, [some 3]) ∧ ¬ (3 < 1) := by decide

/-- C8 (amended): for every mesh geometry built by `Model::load`, the index
buffer is the source index array copied verbatim (unvalidated), `num_elements`
is `indices.len() as u32`, hence equal to `len(indices)` whenever that length
is below 2^32; and provided every source index is below
`len(positions) / 3` — the vertex count — every index in the built geometry is
below the number of built vertices. -/
theorem c8_geometry_invariant {F I : Type} (obj : Object F I) (model : Model F I)
    (hload : Model.load obj = some model) :
    List.Forall₂ (fun (src : TobjModel F) (mesh : Mesh F) =>
      mesh.geometry.index_buffer = src.mesh.indices ∧
      (src.mesh.indices.length < u32Mod →
        mesh.geometry.num_elements = src.mesh.indices.length) ∧
      ((∀ ix ∈ src.mesh.indices, ix < src.mesh.positions.length / 3) →
        ∀ ix ∈ mesh.geometry.index_buffer, ix < mesh.geometry.vertex_buffer.length))
      obj.models model.meshes := by
  obtain ⟨-, -, hmesh⟩ := Model.load_spec hload
  refine List.Forall₂.imp ?_ (loadMeshes_forall₂ _ _ hmesh)
  intro src mesh h
  obtain ⟨⟨vs, hvs, hvb⟩, -, hib, hne, -⟩ := loadMesh_spec h
  refine ⟨hib, ?_, ?_⟩
  · intro hlt
    rw [hne]
    exact Nat.mod_eq_of_lt hlt
  · intro hbound ix hix
    rw [hib] at hix
    rw [hvb, buildVertices_length _ _ hvs]
    exact hbound ix hix

/-- Object used by the C8 witness: one well-formed mesh with three vertices
and three in-range indices, no textures. -/
def c8wObj : Object Unit Unit :=
  { models := [ { name := ""
                , mesh := { positions := [(), (), ()], texcoords := [(), ()]
                          , normals := [(), (), ()], indices := [0, 0, 0]
                          , material_id := none } } ]
    textures := none }

/-- Model produced by loading `c8wObj`. -/
def c8wModel : Model Unit Unit :=
  { meshes := [ { geometry :=
                  { name := ""
                  , vertex_buffer := [ { position := ((), (), ()), tex_coords := ((), ())
                                       , normal := ((), (), ()) } ]
                  , index_buffer := [0, 0, 0]
                  , num_elements := 3 }
                , material_id := none } ]
    materials := none
    material_layout := none }

/-- Witness for c8_geometry_invariant at a concrete well-formed object. -/
theorem c8_geometry_invariant_witness :
    Model.load c8wObj = some c8wModel ∧
    List.Forall₂ (fun (src : TobjModel Unit) (mesh : Mesh Unit) =>
      mesh.geometry.index_buffer = src.mesh.indices ∧
      (src.mesh.indices.length < u32Mod →
        mesh.geometry.num_elements = src.mesh.indices.length) ∧
      ((∀ ix ∈ src.mesh.indices, ix < src.mesh.positions.length / 3) →
        ∀ ix ∈ mesh.geometry.index_buffer, ix < mesh.geometry.vertex_buffer.length))
      c8wObj.models c8wModel.meshes :=
  ⟨by decide, c8_geometry_invariant c8wObj c8wModel (by decide)⟩

/-- Object refuting C8 as stated: a mesh with no vertices but index 0 in its
index array. -/
def c8CexObj : Object Unit Unit :=
  { models := [ { name := ""
                , mesh := { positions := [], texcoords := [], normals := []
                          , indices := [0], material_id := none } } ]
    textures := none }

/-- Counterexample to C8 as stated: `Model::load` copies indices without
validation, so loading `c8CexObj` builds a geometry whose index array is `[0]`
while zero vertices were built — index 0 is not strictly less than the vertex
count 0 (the claimed invariant fails), even though `num_elements = 1` does
equal the index-array length. -/
theorem c8_counterexample :
    (Model.load c8CexObj).map (fun model => model.meshes.map (fun mesh =>
      (mesh.geometry.index_buffer, mesh.geometry.vertex_buffer.length,
       mesh.geometry.num_elements)))
      = some [([0], 0, 1)] ∧ ¬ (0 < 0) := by decide

/-! Helper lemmas about the draw-dispatch loop. -/

lemma meshCmd_drawsOf {F I : Type} {model : Model F I} {ir : Nat × Nat}
    {bgs : List (BindGroup I)} {mesh : Mesh F} {cmds : List (RenderCmd F I)}
    (h : meshCmd model ir bgs mesh = some cmds) :
    drawsOf cmds = [((0, mesh.geometry.num_elements), ir)] := by
  simp only [meshCmd] at h
  cases hmm : mesh.material_id <;> rw [hmm] at h
  · simp only [Option.some.injEq] at h
    rw [← h]
    exact drawsOf_drawMeshInstanced mesh none ir bgs
  · cases hms : model.materials <;> rw [hms] at h
    · exact absurd h (by simp)
    · obtain ⟨mat, -, hfa⟩ := Option.map_eq_some'.mp h
      rw [← hfa]
      exact drawsOf_drawMeshInstanced mesh _ ir bgs

lemma drawMeshes_drawsOf {F I : Type} (model : Model F I) (ir : Nat × Nat)
    (bgs : List (BindGroup I)) :
    ∀ (meshes : List (Mesh F)) (cmds : List (RenderCmd F I)),
      drawMeshes model ir bgs meshes = some cmds →
      drawsOf cmds = meshes.map (fun mesh => ((0, mesh.geometry.num_elements), ir)) := by
  intro meshes
  induction meshes with
  | nil =>
    intro cmds h
    simp only [drawMeshes, Option.some.injEq] at h
    simp [← h, drawsOf]
  | cons mesh rest ih =>
    intro cmds h
    simp only [drawMeshes] at h
    cases hc : meshCmd model ir bgs mesh <;> rw [hc] at h
    · exact absurd h (by simp)
    cases hr : drawMeshes model ir bgs rest <;> rw [hr] at h
    · exact absurd h (by simp)
    · simp only [Option.some.injEq] at h
      rw [← h, drawsOf_append, meshCmd_drawsOf hc, ih _ hr]
      simp

lemma drawMeshes_total {F I : Type} (model : Model F I) (ir : Nat × Nat)
    (bgs : List (BindGroup I)) :
    ∀ meshes : List (Mesh F),
      (∀ mesh ∈ meshes, ∀ i, mesh.material_id = some i →
        ∃ ms, model.materials = some ms ∧ i < ms.length) →
      ∃ cmds, drawMeshes model ir bgs meshes = some cmds := by
  intro meshes
  induction meshes with
  | nil => intro _; exact ⟨[], rfl⟩
  | cons mesh rest ih =>
    intro h
    obtain ⟨restCmds, hrest⟩ := ih (fun m hm => h m (List.mem_cons_of_mem _ hm))
    have hhead : ∃ cmds0, meshCmd model ir bgs mesh = some cmds0 := by
      cases hmm : mesh.material_id with
      | none =>
        refine ⟨drawMeshInstanced mesh none ir bgs, ?_⟩
        simp [meshCmd, hmm]
      | some i =>
        obtain ⟨ms, hms, hlt⟩ := h mesh (List.mem_cons_self ..) i hmm
        have hg : ms[i]? = some ms[i] := List.getElem?_eq_getElem hlt
        refine ⟨drawMeshInstanced mesh (some (ms[i].bind_group)) ir bgs, ?_⟩
        simp [meshCmd, hmm, hms, hg]
    obtain ⟨cmds0, hc0⟩ := hhead
    exact ⟨cmds0 ++ restCmds, by simp [drawMeshes, hc0, hrest]⟩

/-- C2 (amended): for every ModelRenderer whose fields are consistent (an
instance buffer is present whenever an instance count is, and every mesh's
material id indexes into the model's material list — without which
`draw_model` panics), `draw_model` succeeds and issues exactly one indexed
draw call per mesh, in stored order, each over index range
`0..mesh.geometry.num_elements`; every draw uses instance range
`0..(k mod 2^32)` when the instance count is `Some(k)` (the range bound is
`k as u32`, so it is `0..k` exactly when `k < 2^32`) and `0..1` when it is
`None`; and when an instance count is present the instance buffer is bound at
vertex stream slot 1 before any mesh is drawn. -/
theorem c2_draw_dispatch {F I : Type} (r : ModelRenderer F I) (bgs : List (BindGroup I))
    (hbuf : r.instance_length.isSome → r.instance_buffer.isSome)
    (hmat : ∀ mesh ∈ r.model.meshes, ∀ i, mesh.material_id = some i →
      ∃ ms, r.model.materials = some ms ∧ i < ms.length) :
    ∃ cmds, drawModel r bgs = some cmds ∧
      drawsOf cmds = r.model.meshes.map (fun mesh =>
        ((0, mesh.geometry.num_elements),
         match r.instance_length with
         | some k => (0, k % u32Mod)
         | none => (0, 1))) ∧
      (∀ k, r.instance_length = some k →
        ∃ buf, r.instance_buffer = some buf ∧
          cmds[1]? = some (RenderCmd.setVertexBuffer 1 (BufferData.inst buf)) ∧
          ∀ q ixs b insts, cmds[q]? = some (RenderCmd.drawIndexed ixs b insts) → 1 < q) := by
  cases hl : r.instance_length with
  | none =>
    have hinst : instancesToDraw r = some ([], (0, 1)) := by
      simp [instancesToDraw, hl]
    obtain ⟨mcmds, hmc⟩ := drawMeshes_total r.model (0, 1) bgs r.model.meshes hmat
    refine ⟨RenderCmd.setPipeline r.render_pipeline :: mcmds, ?_, ?_, ?_⟩
    · simp [drawModel, hinst, hmc]
    · simp only [drawsOf]
      rw [drawMeshes_drawsOf _ _ _ _ _ hmc]
    · intro k hk
      exact absurd hk (by simp)
  | some k =>
    have hbs : r.instance_buffer.isSome := hbuf (by rw [hl]; rfl)
    obtain ⟨buf, hb⟩ := Option.isSome_iff_exists.mp hbs
    have hinst : instancesToDraw r
        = some ([RenderCmd.setVertexBuffer 1 (BufferData.inst buf)], (0, k % u32Mod)) := by
      simp [instancesToDraw, hl, hb]
    obtain ⟨mcmds, hmc⟩ := drawMeshes_total r.model (0, k % u32Mod) bgs r.model.meshes hmat
    refine ⟨RenderCmd.setPipeline r.render_pipeline
        :: RenderCmd.setVertexBuffer 1 (BufferData.inst buf) :: mcmds, ?_, ?_, ?_⟩
    · simp [drawModel, hinst, hmc]
    · simp only [drawsOf]
      rw [drawMeshes_drawsOf _ _ _ _ _ hmc]
    · intro k' hk'
      injection hk' with hk'
      subst hk'
      refine ⟨buf, hb, by simp, ?_⟩
      intro q ixs b insts hq
      match q with
      | 0 => exact absurd hq (by simp)
      | 1 => exact absurd hq (by simp)
      | (q + 2) => omega

/-- Empty shader source shared by concrete fixtures. -/
def emptyShader : String := ""

/-- Trivial model shared by concrete fixtures: no meshes, no materials. -/
def fixModel : Model Unit Unit :=
  { meshes := [], materials := none, material_layout := none }

/-- Surface configuration shared by concrete fixtures. -/
def fixConfig : SurfaceConfiguration := { width := 1, height := 1, format := 0 }

/-- Camera fixture with an external bind-group layout and group. -/
def fixCamera : Camera Unit :=
  { bind_group_layout := BindGroupLayout.external 0, bind_group := BindGroup.external 0 }

/-- Light fixture with an external bind-group layout and group. -/
def fixLight : Light Unit :=
  { bind_group_layout := BindGroupLayout.external 1, bind_group := BindGroup.external 1 }

/-- Mesh with empty geometry and no material, used by concrete C2 renderers. -/
def c2Mesh : Mesh Unit :=
  { geometry := { name := "", vertex_buffer := [], index_buffer := [], num_elements := 0 }
    material_id := none }

/-- Renderer used by the C2 witness: one mesh, two instances. -/
def c2wRenderer : ModelRenderer Unit Unit :=
  { model := { meshes := [c2Mesh], materials := none, material_layout := none }
    render_pipeline := createRenderPipeline [] 0 none [] ""
    instance_buffer := some []
    instance_length := some 2 }

/-- Witness for c2_draw_dispatch at a concrete instanced renderer with one
mesh. -/
theorem c2_draw_dispatch_witness :
    (c2wRenderer.instance_length.isSome → c2wRenderer.instance_buffer.isSome) ∧
    (∃ cmds, drawModel c2wRenderer ([] : List (BindGroup Unit)) = some cmds ∧
      drawsOf cmds = c2wRenderer.model.meshes.map (fun mesh =>
        ((0, mesh.geometry.num_elements),
         match c2wRenderer.instance_length with
         | some k => (0, k % u32Mod)
         | none => (0, 1))) ∧
      (∀ k, c2wRenderer.instance_length = some k →
        ∃ buf, c2wRenderer.instance_buffer = some buf ∧
          cmds[1]? = some (RenderCmd.setVertexBuffer 1 (BufferData.inst buf)) ∧
          ∀ q ixs b insts, cmds[q]? = some (RenderCmd.drawIndexed ixs b insts) → 1 < q)) :=
  ⟨by decide,
   c2_draw_dispatch c2wRenderer [] (by decide)
     (by intro mesh hm i hi
         simp only [c2wRenderer, List.mem_singleton] at hm
         rw [hm] at hi
         exact absurd hi (by simp [c2Mesh]))⟩

/-- Renderer refuting C2 as stated: instance count 2^32. -/
def c2CexRenderer : ModelRenderer Unit Unit :=
  { model := { meshes := [c2Mesh], materials := none, material_layout := none }
    render_pipeline := createRenderPipeline [] 0 none [] ""
    instance_buffer := some []
    instance_length := some u32Mod }

/-- Counterexample to C2 as stated: the draw range bound is
`instance_range as u32`, so a renderer whose instance count is `Some(2^32)`
issues its draw with instance range `0..0`, not `0..2^32` as claimed. -/
theorem c2_counterexample :
    c2CexRenderer.instance_length = some u32Mod ∧
    (drawModel c2CexRenderer ([] : List (BindGroup Unit))).map drawsOf
      = some [((0, 0), (0, 0))] ∧
    (drawModel c2CexRenderer ([] : List (BindGroup Unit))).map drawsOf
      ≠ some [((0, 0), (0, u32Mod))] := by
  refine ⟨rfl, by decide, ?_⟩
  intro h
  rw [show (drawModel c2CexRenderer ([] : List (BindGroup Unit))).map drawsOf
      = some [((0, 0), (0, 0))] from by decide] at h
  simp only [Option.some.injEq, List.cons.injEq, Prod.mk.injEq] at h
  exact absurd h.1.2.2 (by norm_num [u32Mod])

/-- C3: the ordered bind-group-layout list of the pipeline built by
`new_renderer` contains the model's material layout first if and only if the
model has one, then always the camera layout, then the light layout, in that
fixed order; in particular for a model built by `Model::load` with
`materials = None` the pipeline layout omits the material bind group and has
exactly the camera and light layouts at positions 0 and 1. -/
theorem c3_pipeline_layouts {F I : Type} (model : Model F I) (config : SurfaceConfiguration)
    (camera : Camera I) (light : Light I) (shader : String)
    (idata : Option (List (InstanceRaw F))) (ilen : Option Nat) :
    (ModelRenderer.new_renderer model config camera light shader idata ilen).render_pipeline.layout
      = (match model.material_layout with
         | some material_layout => [material_layout]
         | none => []) ++ [camera.bind_group_layout, light.bind_group_layout] ∧
    (∀ obj : Object F I, Model.load obj = some model → model.materials = none →
      (ModelRenderer.new_renderer model config camera light shader
          idata ilen).render_pipeline.layout
        = [camera.bind_group_layout, light.bind_group_layout] ∧
      (ModelRenderer.new_renderer model config camera light shader
          idata ilen).render_pipeline.layout[0]? = some camera.bind_group_layout ∧
      (ModelRenderer.new_renderer model config camera light shader
          idata ilen).render_pipeline.layout[1]? = some light.bind_group_layout) := by
  have hmain : (ModelRenderer.new_renderer model config camera light shader
      idata ilen).render_pipeline.layout
    = (match model.material_layout with
       | some material_layout => [material_layout]
       | none => []) ++ [camera.bind_group_layout, light.bind_group_layout] := rfl
  refine ⟨hmain, ?_⟩
  intro obj hload hnone
  obtain ⟨hmat, hlay, -⟩ := Model.load_spec hload
  have htex : obj.textures = none := by
    cases htex' : obj.textures with
    | none => rfl
    | some tex =>
      rw [htex', hnone] at hmat
      exact absurd hmat (by simp)
  rw [htex] at hlay
  simp only [Option.map_none'] at hlay
  rw [hmain, hlay]
  exact ⟨by simp, by simp, by simp⟩

/-- Witness for c3_pipeline_layouts at a concrete texture-free loaded model. -/
theorem c3_pipeline_layouts_witness :
    Model.load c5wObj = some fixModel ∧ fixModel.materials = none ∧
    ((ModelRenderer.new_renderer fixModel fixConfig fixCamera fixLight emptyShader
        none none).render_pipeline.layout
      = [fixCamera.bind_group_layout, fixLight.bind_group_layout] ∧
     (ModelRenderer.new_renderer fixModel fixConfig fixCamera fixLight emptyShader
        none none).render_pipeline.layout[0]? = some fixCamera.bind_group_layout ∧
     (ModelRenderer.new_renderer fixModel fixConfig fixCamera fixLight emptyShader
        none none).render_pipeline.layout[1]? = some fixLight.bind_group_layout) :=
  ⟨by decide, by decide,
   (c3_pipeline_layouts fixModel fixConfig fixCamera fixLight emptyShader none none).2
     c5wObj (by decide) (by decide)⟩

/-- C6: the ordered vertex-buffer-layout list of the pipeline built by
`new_renderer` always has the per-vertex layout first and contains the
per-instance layout, as second entry, if and only if instance data was
supplied; hence a constructed renderer that holds an instance buffer has a
pipeline compiled with the second, per-instance vertex stream declared. -/
theorem c6_vertex_layouts {F I : Type} (model : Model F I) (config : SurfaceConfiguration)
    (camera : Camera I) (light : Light I) (shader : String)
    (idata : Option (List (InstanceRaw F))) (ilen : Option Nat) :
    (ModelRenderer.new_renderer model config camera light shader
        idata ilen).render_pipeline.vertex_layouts
      = [ModelVertex.desc] ++ (if idata.isSome then [InstanceRaw.desc] else []) ∧
    ((ModelRenderer.new_renderer model config camera light shader
        idata ilen).instance_buffer.isSome →
      (ModelRenderer.new_renderer model config camera light shader
          idata ilen).render_pipeline.vertex_layouts[1]? = some InstanceRaw.desc ∧
      InstanceRaw.desc.step_mode = VertexStepMode.instanceStep) := by
  constructor
  · rfl
  · intro hbuf
    cases hd : idata with
    | none =>
      rw [hd] at hbuf
      simp [ModelRenderer.new_renderer] at hbuf
    | some d =>
      exact ⟨by simp [ModelRenderer.new_renderer, createRenderPipeline], rfl⟩

/-- Witness for c6_vertex_layouts at a concrete renderer built with instance
data. -/
theorem c6_vertex_layouts_witness :
    (ModelRenderer.new_renderer fixModel fixConfig fixCamera fixLight emptyShader
        (some ([] : List (InstanceRaw Unit))) (some 0)).instance_buffer.isSome ∧
    ((ModelRenderer.new_renderer fixModel fixConfig fixCamera fixLight emptyShader
        (some ([] : List (InstanceRaw Unit))) (some 0)).render_pipeline.vertex_layouts[1]?
      = some InstanceRaw.desc ∧
     InstanceRaw.desc.step_mode = VertexStepMode.instanceStep) :=
  ⟨by decide,
   (c6_vertex_layouts fixModel fixConfig fixCamera fixLight emptyShader
      (some []) (some 0)).2 (by decide)⟩

/-- C7: `draw_model` branches on `instance_length` alone and then unwraps
`instance_buffer`; `new_renderer` builds the buffer from `instance_data` alone
(the buffer is present exactly when instance data was supplied) and stores
`instance_length` as passed, the two being independent parameters.  Hence for
every renderer satisfying the caller-consistency precondition (a buffer is
present whenever a count is), the unwrap in the instance-range block succeeds;
and for every renderer violating it the block, and with it `draw_model`,
panics. -/
theorem c7_instance_unwrap_safety {F I : Type} :
    (∀ (model : Model F I) (config : SurfaceConfiguration) (camera : Camera I)
        (light : Light I) (shader : String) (idata : Option (List (InstanceRaw F)))
        (ilen : Option Nat),
      (ModelRenderer.new_renderer model config camera light shader
          idata ilen).instance_buffer.isSome = idata.isSome ∧
      (ModelRenderer.new_renderer model config camera light shader
          idata ilen).instance_length = ilen) ∧
    (∀ r : ModelRenderer F I, r.instance_length.isSome → r.instance_buffer.isSome →
      (instancesToDraw r).isSome) ∧
    (∀ r : ModelRenderer F I, r.instance_length.isSome → r.instance_buffer = none →
      instancesToDraw r = none ∧ ∀ bgs, drawModel r bgs = none) := by
  refine ⟨?_, ?_, ?_⟩
  · intro model config camera light shader idata ilen
    cases idata <;> exact ⟨rfl, rfl⟩
  · intro r hlen hbuf
    cases hl : r.instance_length with
    | none => rw [hl] at hlen; simp at hlen
    | some k =>
      cases hb : r.instance_buffer with
      | none => rw [hb] at hbuf; simp at hbuf
      | some buf => simp [instancesToDraw, hl, hb]
  · intro r hlen hbuf
    cases hl : r.instance_length with
    | none => rw [hl] at hlen; simp at hlen
    | some k =>
      have hi : instancesToDraw r = none := by simp [instancesToDraw, hl, hbuf]
      exact ⟨hi, fun bgs => by simp [drawModel, hi]⟩

/-- Renderer with consistent instance fields, for the C7 witness. -/
def c7rOk : ModelRenderer Unit Unit :=
  { model := fixModel
    render_pipeline := createRenderPipeline [] 0 none [] emptyShader
    instance_buffer := some []
    instance_length := some 1 }

/-- Renderer with an instance count but no instance buffer, for the C7
witness. -/
def c7rBad : ModelRenderer Unit Unit :=
  { model := fixModel
    render_pipeline := createRenderPipeline [] 0 none [] emptyShader
    instance_buffer := none
    instance_length := some 1 }

/-- Witness for c7_instance_unwrap_safety: a constructed renderer's buffer
presence follows its instance data; a consistent renderer's instance block
succeeds; an inconsistent one makes `draw_model` panic. -/
theorem c7_instance_unwrap_safety_witness :
    (ModelRenderer.new_renderer fixModel fixConfig fixCamera fixLight emptyShader
        (some ([] : List (InstanceRaw Unit))) none).instance_buffer.isSome
      = (some ([] : List (InstanceRaw Unit))).isSome ∧
    (instancesToDraw c7rOk).isSome ∧
    drawModel c7rBad ([] : List (BindGroup Unit)) = none :=
  ⟨((c7_instance_unwrap_safety (F := Unit) (I := Unit)).1 fixModel fixConfig fixCamera
      fixLight emptyShader (some []) none).1,
   (c7_instance_unwrap_safety (F := Unit) (I := Unit)).2.1 c7rOk (by decide) (by decide),
   (((c7_instance_unwrap_safety (F := Unit) (I := Unit)).2.2 c7rBad (by decide) (by decide)).2 [])⟩

/-- C10: per-frame render errors are classified as the taxonomy prescribes: a
lost surface triggers `scene.resize(scene.size)` — reconfiguring surface and
depth target with the last known size when it is positive — and the loop keeps
polling; GPU out-of-memory exits the event loop; timeout and outdated are
logged and the frame skipped with the scene untouched. -/
theorem c10_frame_error_taxonomy (s : SceneState) :
    (handleRenderResult s (some SurfaceError.lost)
        = (s.resize s.size, ControlFlow.poll, []) ∧
     (0 < s.size.1 → 0 < s.size.2 →
       (handleRenderResult s (some SurfaceError.lost)).1.surface_size = s.size ∧
       (handleRenderResult s (some SurfaceError.lost)).1.depth_size = s.size)) ∧
    handleRenderResult s (some SurfaceError.outOfMemory) = (s, ControlFlow.exit, []) ∧
    (handleRenderResult s (some SurfaceError.timeout)
        = (s, ControlFlow.poll, ["Error : Timeout"]) ∧
     handleRenderResult s (some SurfaceError.outdated)
        = (s, ControlFlow.poll, ["Error : Outdated"])) := by
  refine ⟨⟨rfl, fun h1 h2 => ?_⟩, rfl, rfl, rfl⟩
  constructor <;> simp [handleRenderResult, SceneState.resize, h1, h2]

/-- Scene fixture with a positive last known size, for the C10 witness. -/
def c10wScene : SceneState :=
  { size := (4, 3), config_size := (4, 3), surface_size := (4, 3)
    depth_size := (4, 3), projection_size := (4, 3) }

/-- Witness for c10_frame_error_taxonomy at a concrete scene state. -/
theorem c10_frame_error_taxonomy_witness :
    0 < c10wScene.size.1 ∧ 0 < c10wScene.size.2 ∧
    ((handleRenderResult c10wScene (some SurfaceError.lost)).1.surface_size
        = c10wScene.size ∧
     (handleRenderResult c10wScene (some SurfaceError.lost)).1.depth_size
        = c10wScene.size) ∧
    handleRenderResult c10wScene (some SurfaceError.outOfMemory)
        = (c10wScene, ControlFlow.exit, []) ∧
    handleRenderResult c10wScene (some SurfaceError.timeout)
        = (c10wScene, ControlFlow.poll, ["Error : Timeout"]) :=
  ⟨by decide, by decide,
   (c10_frame_error_taxonomy c10wScene).1.2 (by decide) (by decide),
   (c10_frame_error_taxonomy c10wScene).2.1,
   (c10_frame_error_taxonomy c10wScene).2.2.1⟩
